import Mathlib

/-!
Verification of chuk-mcp-open-meteo (Python, pydantic models + httpx tools)
against its natural-language specification.

The embedding models:
  * JSON values (`Json`), with numbers as rationals (the repository never
    performs arithmetic on them, only carries them through);
  * the pydantic response models of `models.py` as Lean structures, with
    decoding functions that follow pydantic's semantics: required fields
    (`Field(...)`) fail when missing, `Optional` fields decode to `none`
    when missing or `null`, models with `model_config extra="allow"` keep
    unrecognized fields in an `extra` list while the other models silently
    ignore them (pydantic's default `extra="ignore"`);
  * the query-parameter assembly of each tool in `server.py`, including the
    Python truthiness test `if hourly:` on optional string arguments;
  * the tool call pipeline `raise_for_status` + decode as a function from
    an HTTP response (status, body) to `Except`;
  * the `WEATHER_CODES` table and `interpret_weather_code`.
-/

/-- JSON values; numbers are modelled as rationals. -/
inductive Json where
  | null : Json
  | bool : Bool → Json
  | num : ℚ → Json
  | str : String → Json
  | arr : List Json → Json
  | obj : List (String × Json) → Json

/-- Look a key up in an object's field list (first match). -/
def getField (fs : List (String × Json)) (k : String) : Option Json :=
  (fs.find? (fun p => p.1 == k)).map (fun p => p.2)

/-- Parse a JSON string. -/
def parseStr : Json → Except String String
  | .str s => .ok s
  | _ => .error "expected string"

/-- Parse a JSON number (pydantic `float`). -/
def parseNum : Json → Except String ℚ
  | .num q => .ok q
  | _ => .error "expected number"

/-- Parse a JSON integer (pydantic `int`). -/
def parseInt : Json → Except String Int
  | .num q => if q.den = 1 then .ok q.num else .error "expected integer"
  | _ => .error "expected integer"

/-- Parse a nullable number entry (pydantic `Optional[float]` inside a list). -/
def parseOptNum : Json → Except String (Option ℚ)
  | .null => .ok none
  | .num q => .ok (some q)
  | _ => .error "expected number or null"

/-- Parse a nullable integer entry (pydantic `Optional[int]` inside a list). -/
def parseOptInt : Json → Except String (Option Int)
  | .null => .ok none
  | .num q => if q.den = 1 then .ok (some q.num) else .error "expected integer or null"
  | _ => .error "expected integer or null"

/-- Map a parser over a list, failing on the first element error. -/
def mapME {α β : Type} (p : α → Except String β) : List α → Except String (List β)
  | [] => .ok []
  | x :: xs => do
    let y ← p x
    let ys ← mapME p xs
    pure (y :: ys)

/-- Parse a JSON array elementwise. -/
def parseList (p : Json → Except String α) : Json → Except String (List α)
  | .arr xs => mapME p xs
  | _ => .error "expected array"

/-- Membership test of a key in a declared-field list. -/
def keyInList (keys : List String) (k : String) : Bool :=
  keys.any (fun q => k == q)

/-- A required pydantic field (`Field(...)`): missing key is an error. -/
def reqField (fs : List (String × Json)) (k : String)
    (p : Json → Except String α) : Except String α :=
  match getField fs k with
  | none => .error (k ++ ": field required")
  | some v => p v

/-- An optional pydantic field (`Optional[...] = None`): missing key or a
`null` value decodes to `none`. -/
def optField (fs : List (String × Json)) (k : String)
    (p : Json → Except String α) : Except String (Option α) :=
  match getField fs k with
  | none => .ok none
  | some .null => .ok none
  | some v => (p v).map some

-- Weather code table and interpretation (server.py WEATHER_CODES,
-- interpret_weather_code)

/-- `WEATHER_CODES` from `server.py`: WMO code ↦ (description, severity). -/
def WEATHER_CODES : List (Int × String × String) :=
  [ (0, ("Clear sky", "clear")),
    (1, ("Mainly clear", "clear")),
    (2, ("Partly cloudy", "cloudy")),
    (3, ("Overcast", "cloudy")),
    (45, ("Fog", "fog")),
    (48, ("Depositing rime fog", "fog")),
    (51, ("Light drizzle", "drizzle")),
    (53, ("Moderate drizzle", "drizzle")),
    (55, ("Dense drizzle", "drizzle")),
    (56, ("Light freezing drizzle", "freezing")),
    (57, ("Dense freezing drizzle", "freezing")),
    (61, ("Slight rain", "rain")),
    (63, ("Moderate rain", "rain")),
    (65, ("Heavy rain", "rain")),
    (66, ("Light freezing rain", "freezing")),
    (67, ("Heavy freezing rain", "freezing")),
    (71, ("Slight snow fall", "snow")),
    (73, ("Moderate snow fall", "snow")),
    (75, ("Heavy snow fall", "snow")),
    (77, ("Snow grains", "snow")),
    (80, ("Slight rain showers", "showers")),
    (81, ("Moderate rain showers", "showers")),
    (82, ("Violent rain showers", "showers")),
    (85, ("Slight snow showers", "snow")),
    (86, ("Heavy snow showers", "snow")),
    (95, ("Thunderstorm", "thunderstorm")),
    (96, ("Thunderstorm with slight hail", "thunderstorm")),
    (99, ("Thunderstorm with heavy hail", "thunderstorm")) ]

/-- `WeatherCodeInterpretation` model from `models.py`. -/
structure WeatherCodeInterpretation where
  code : Int
  description : String
  severity : String
deriving Repr, DecidableEq

/-- `interpret_weather_code` from `server.py`: table lookup with an
"Unknown weather code" fallback, never an error. -/
def interpret_weather_code (weather_code : Int) : WeatherCodeInterpretation :=
  match WEATHER_CODES.find? (fun p => p.1 == weather_code) with
  | some p =>
      { code := weather_code, description := p.2.1, severity := p.2.2 }
  | none =>
      { code := weather_code,
        description := "Unknown weather code: " ++ toString weather_code,
        severity := "unknown" }

-- Response models (models.py)

/-- `CurrentWeather` model: all five fields are required (`Field(...)`). -/
structure CurrentWeather where
  temperature : ℚ
  windspeed : ℚ
  winddirection : ℚ
  weathercode : Int
  time : String

/-- Decode a `CurrentWeather` block; every field is required. -/
def decodeCurrentWeather : Json → Except String CurrentWeather
  | .obj fs => do
    let temperature ← reqField fs "temperature" parseNum
    let windspeed ← reqField fs "windspeed" parseNum
    let winddirection ← reqField fs "winddirection" parseNum
    let weathercode ← reqField fs "weathercode" parseInt
    let time ← reqField fs "time" parseStr
    pure { temperature, windspeed, winddirection, weathercode, time }
  | _ => .error "current_weather: expected object"

/-- The field names declared on `HourlyWeather`. -/
def hourlyWeatherKeys : List String :=
  ["time", "temperature_2m", "relative_humidity_2m", "precipitation", "rain",
   "showers", "snowfall", "cloud_cover", "wind_speed_10m",
   "wind_direction_10m", "pressure_msl"]

/-- `HourlyWeather` model: required `time`, optional `list[float]` series
(entries NOT nullable), plus retained unknown fields
(`model_config extra="allow"`). -/
structure HourlyWeather where
  time : List String
  temperature_2m : Option (List ℚ)
  relative_humidity_2m : Option (List ℚ)
  precipitation : Option (List ℚ)
  rain : Option (List ℚ)
  showers : Option (List ℚ)
  snowfall : Option (List ℚ)
  cloud_cover : Option (List ℚ)
  wind_speed_10m : Option (List ℚ)
  wind_direction_10m : Option (List ℚ)
  pressure_msl : Option (List ℚ)
  extra : List (String × Json)

/-- Decode an `HourlyWeather` block. -/
def decodeHourlyWeather : Json → Except String HourlyWeather
  | .obj fs => do
    let time ← reqField fs "time" (parseList parseStr)
    let temperature_2m ← optField fs "temperature_2m" (parseList parseNum)
    let relative_humidity_2m ← optField fs "relative_humidity_2m" (parseList parseNum)
    let precipitation ← optField fs "precipitation" (parseList parseNum)
    let rain ← optField fs "rain" (parseList parseNum)
    let showers ← optField fs "showers" (parseList parseNum)
    let snowfall ← optField fs "snowfall" (parseList parseNum)
    let cloud_cover ← optField fs "cloud_cover" (parseList parseNum)
    let wind_speed_10m ← optField fs "wind_speed_10m" (parseList parseNum)
    let wind_direction_10m ← optField fs "wind_direction_10m" (parseList parseNum)
    let pressure_msl ← optField fs "pressure_msl" (parseList parseNum)
    pure { time, temperature_2m, relative_humidity_2m, precipitation, rain,
           showers, snowfall, cloud_cover, wind_speed_10m, wind_direction_10m,
           pressure_msl,
           extra := fs.filter (fun p => !(keyInList hourlyWeatherKeys p.1)) }
  | _ => .error "hourly: expected object"

/-- The field names declared on `DailyWeather`. -/
def dailyWeatherKeys : List String :=
  ["time", "temperature_2m_max", "temperature_2m_min", "precipitation_sum",
   "precipitation_hours", "rain_sum", "sunrise", "sunset", "wind_speed_10m_max"]

/-- `DailyWeather` model: required `time`, optional series
(`list[float]` / `list[str]`, entries not nullable), with retained unknown
fields (`extra="allow"`). -/
structure DailyWeather where
  time : List String
  temperature_2m_max : Option (List ℚ)
  temperature_2m_min : Option (List ℚ)
  precipitation_sum : Option (List ℚ)
  precipitation_hours : Option (List ℚ)
  rain_sum : Option (List ℚ)
  sunrise : Option (List String)
  sunset : Option (List String)
  wind_speed_10m_max : Option (List ℚ)
  extra : List (String × Json)

/-- Decode a `DailyWeather` block. -/
def decodeDailyWeather : Json → Except String DailyWeather
  | .obj fs => do
    let time ← reqField fs "time" (parseList parseStr)
    let temperature_2m_max ← optField fs "temperature_2m_max" (parseList parseNum)
    let temperature_2m_min ← optField fs "temperature_2m_min" (parseList parseNum)
    let precipitation_sum ← optField fs "precipitation_sum" (parseList parseNum)
    let precipitation_hours ← optField fs "precipitation_hours" (parseList parseNum)
    let rain_sum ← optField fs "rain_sum" (parseList parseNum)
    let sunrise ← optField fs "sunrise" (parseList parseStr)
    let sunset ← optField fs "sunset" (parseList parseStr)
    let wind_speed_10m_max ← optField fs "wind_speed_10m_max" (parseList parseNum)
    pure { time, temperature_2m_max, temperature_2m_min, precipitation_sum,
           precipitation_hours, rain_sum, sunrise, sunset, wind_speed_10m_max,
           extra := fs.filter (fun p => !(keyInList dailyWeatherKeys p.1)) }
  | _ => .error "daily: expected object"

/-- `WeatherForecast` envelope: required coordinates, everything else
optional; NO `extra="allow"` (pydantic's default ignores unknown fields). -/
structure WeatherForecast where
  latitude : ℚ
  longitude : ℚ
  elevation : Option ℚ
  timezone : Option String
  timezone_abbreviation : Option String
  current_weather : Option CurrentWeather
  hourly : Option HourlyWeather
  daily : Option DailyWeather

/-- Decode a `WeatherForecast` envelope. -/
def decodeWeatherForecast : Json → Except String WeatherForecast
  | .obj fs => do
    let latitude ← reqField fs "latitude" parseNum
    let longitude ← reqField fs "longitude" parseNum
    let elevation ← optField fs "elevation" parseNum
    let timezone ← optField fs "timezone" parseStr
    let timezone_abbreviation ← optField fs "timezone_abbreviation" parseStr
    let current_weather ← optField fs "current_weather" decodeCurrentWeather
    let hourly ← optField fs "hourly" decodeHourlyWeather
    let daily ← optField fs "daily" decodeDailyWeather
    pure { latitude, longitude, elevation, timezone, timezone_abbreviation,
           current_weather, hourly, daily }
  | _ => .error "expected object"

/-- `HistoricalWeather` envelope (same as forecast, without current weather). -/
structure HistoricalWeather where
  latitude : ℚ
  longitude : ℚ
  elevation : Option ℚ
  timezone : Option String
  timezone_abbreviation : Option String
  hourly : Option HourlyWeather
  daily : Option DailyWeather

/-- Decode a `HistoricalWeather` envelope. -/
def decodeHistoricalWeather : Json → Except String HistoricalWeather
  | .obj fs => do
    let latitude ← reqField fs "latitude" parseNum
    let longitude ← reqField fs "longitude" parseNum
    let elevation ← optField fs "elevation" parseNum
    let timezone ← optField fs "timezone" parseStr
    let timezone_abbreviation ← optField fs "timezone_abbreviation" parseStr
    let hourly ← optField fs "hourly" decodeHourlyWeather
    let daily ← optField fs "daily" decodeDailyWeather
    pure { latitude, longitude, elevation, timezone, timezone_abbreviation,
           hourly, daily }
  | _ => .error "expected object"

/-- The field names declared on `HourlyAirQuality`. -/
def hourlyAirQualityKeys : List String :=
  ["time", "pm10", "pm2_5", "carbon_monoxide", "nitrogen_dioxide",
   "sulphur_dioxide", "ozone", "dust", "uv_index", "us_aqi", "european_aqi"]

/-- `HourlyAirQuality` model: required `time`; all series have NULLABLE
entries (`Optional[list[Optional[float]]]` / `Optional[list[Optional[int]]]`);
unknown fields retained (`extra="allow"`). -/
structure HourlyAirQuality where
  time : List String
  pm10 : Option (List (Option ℚ))
  pm2_5 : Option (List (Option ℚ))
  carbon_monoxide : Option (List (Option ℚ))
  nitrogen_dioxide : Option (List (Option ℚ))
  sulphur_dioxide : Option (List (Option ℚ))
  ozone : Option (List (Option ℚ))
  dust : Option (List (Option ℚ))
  uv_index : Option (List (Option ℚ))
  us_aqi : Option (List (Option Int))
  european_aqi : Option (List (Option Int))
  extra : List (String × Json)

/-- Decode an `HourlyAirQuality` block. -/
def decodeHourlyAirQuality : Json → Except String HourlyAirQuality
  | .obj fs => do
    let time ← reqField fs "time" (parseList parseStr)
    let pm10 ← optField fs "pm10" (parseList parseOptNum)
    let pm2_5 ← optField fs "pm2_5" (parseList parseOptNum)
    let carbon_monoxide ← optField fs "carbon_monoxide" (parseList parseOptNum)
    let nitrogen_dioxide ← optField fs "nitrogen_dioxide" (parseList parseOptNum)
    let sulphur_dioxide ← optField fs "sulphur_dioxide" (parseList parseOptNum)
    let ozone ← optField fs "ozone" (parseList parseOptNum)
    let dust ← optField fs "dust" (parseList parseOptNum)
    let uv_index ← optField fs "uv_index" (parseList parseOptNum)
    let us_aqi ← optField fs "us_aqi" (parseList parseOptInt)
    let european_aqi ← optField fs "european_aqi" (parseList parseOptInt)
    pure { time, pm10, pm2_5, carbon_monoxide, nitrogen_dioxide,
           sulphur_dioxide, ozone, dust, uv_index, us_aqi, european_aqi,
           extra := fs.filter (fun p => !(keyInList hourlyAirQualityKeys p.1)) }
  | _ => .error "hourly: expected object"

/-- `AirQualityResponse` envelope (no `extra="allow"`). -/
structure AirQualityResponse where
  latitude : ℚ
  longitude : ℚ
  elevation : Option ℚ
  timezone : Option String
  hourly : Option HourlyAirQuality

/-- Decode an `AirQualityResponse` envelope. -/
def decodeAirQualityResponse : Json → Except String AirQualityResponse
  | .obj fs => do
    let latitude ← reqField fs "latitude" parseNum
    let longitude ← reqField fs "longitude" parseNum
    let elevation ← optField fs "elevation" parseNum
    let timezone ← optField fs "timezone" parseStr
    let hourly ← optField fs "hourly" decodeHourlyAirQuality
    pure { latitude, longitude, elevation, timezone, hourly }
  | _ => .error "expected object"

/-- The field names declared on `HourlyMarine`. -/
def hourlyMarineKeys : List String :=
  ["time", "wave_height", "wave_direction", "wave_period",
   "wind_wave_height", "wind_wave_direction", "wind_wave_period",
   "swell_wave_height", "swell_wave_direction", "swell_wave_period",
   "ocean_current_velocity", "ocean_current_direction", "sea_level_height_msl"]

/-- `HourlyMarine` model: required `time`; all series have nullable entries;
unknown fields retained (`extra="allow"`). -/
structure HourlyMarine where
  time : List String
  wave_height : Option (List (Option ℚ))
  wave_direction : Option (List (Option ℚ))
  wave_period : Option (List (Option ℚ))
  wind_wave_height : Option (List (Option ℚ))
  wind_wave_direction : Option (List (Option ℚ))
  wind_wave_period : Option (List (Option ℚ))
  swell_wave_height : Option (List (Option ℚ))
  swell_wave_direction : Option (List (Option ℚ))
  swell_wave_period : Option (List (Option ℚ))
  ocean_current_velocity : Option (List (Option ℚ))
  ocean_current_direction : Option (List (Option ℚ))
  sea_level_height_msl : Option (List (Option ℚ))
  extra : List (String × Json)

/-- Decode an `HourlyMarine` block. -/
def decodeHourlyMarine : Json → Except String HourlyMarine
  | .obj fs => do
    let time ← reqField fs "time" (parseList parseStr)
    let wave_height ← optField fs "wave_height" (parseList parseOptNum)
    let wave_direction ← optField fs "wave_direction" (parseList parseOptNum)
    let wave_period ← optField fs "wave_period" (parseList parseOptNum)
    let wind_wave_height ← optField fs "wind_wave_height" (parseList parseOptNum)
    let wind_wave_direction ← optField fs "wind_wave_direction" (parseList parseOptNum)
    let wind_wave_period ← optField fs "wind_wave_period" (parseList parseOptNum)
    let swell_wave_height ← optField fs "swell_wave_height" (parseList parseOptNum)
    let swell_wave_direction ← optField fs "swell_wave_direction" (parseList parseOptNum)
    let swell_wave_period ← optField fs "swell_wave_period" (parseList parseOptNum)
    let ocean_current_velocity ← optField fs "ocean_current_velocity" (parseList parseOptNum)
    let ocean_current_direction ← optField fs "ocean_current_direction" (parseList parseOptNum)
    let sea_level_height_msl ← optField fs "sea_level_height_msl" (parseList parseOptNum)
    pure { time, wave_height, wave_direction, wave_period, wind_wave_height,
           wind_wave_direction, wind_wave_period, swell_wave_height,
           swell_wave_direction, swell_wave_period, ocean_current_velocity,
           ocean_current_direction, sea_level_height_msl,
           extra := fs.filter (fun p => !(keyInList hourlyMarineKeys p.1)) }
  | _ => .error "hourly: expected object"

/-- The field names declared on `DailyMarine`. -/
def dailyMarineKeys : List String :=
  ["time", "wave_height_max", "wave_direction_dominant", "wave_period_max"]

/-- `DailyMarine` model (`extra="allow"`). -/
structure DailyMarine where
  time : List String
  wave_height_max : Option (List (Option ℚ))
  wave_direction_dominant : Option (List (Option ℚ))
  wave_period_max : Option (List (Option ℚ))
  extra : List (String × Json)

/-- Decode a `DailyMarine` block. -/
def decodeDailyMarine : Json → Except String DailyMarine
  | .obj fs => do
    let time ← reqField fs "time" (parseList parseStr)
    let wave_height_max ← optField fs "wave_height_max" (parseList parseOptNum)
    let wave_direction_dominant ← optField fs "wave_direction_dominant" (parseList parseOptNum)
    let wave_period_max ← optField fs "wave_period_max" (parseList parseOptNum)
    pure { time, wave_height_max, wave_direction_dominant, wave_period_max,
           extra := fs.filter (fun p => !(keyInList dailyMarineKeys p.1)) }
  | _ => .error "daily: expected object"

/-- `MarineForecast` envelope (no `extra="allow"`). -/
structure MarineForecast where
  latitude : ℚ
  longitude : ℚ
  elevation : Option ℚ
  timezone : Option String
  hourly : Option HourlyMarine
  daily : Option DailyMarine

/-- Decode a `MarineForecast` envelope. -/
def decodeMarineForecast : Json → Except String MarineForecast
  | .obj fs => do
    let latitude ← reqField fs "latitude" parseNum
    let longitude ← reqField fs "longitude" parseNum
    let elevation ← optField fs "elevation" parseNum
    let timezone ← optField fs "timezone" parseStr
    let hourly ← optField fs "hourly" decodeHourlyMarine
    let daily ← optField fs "daily" decodeDailyMarine
    pure { latitude, longitude, elevation, timezone, hourly, daily }
  | _ => .error "expected object"

/-- `GeocodingResult` model: `name`, `latitude`, `longitude` required,
the rest optional; no `extra="allow"`. -/
structure GeocodingResult where
  id : Option Int
  name : String
  latitude : ℚ
  longitude : ℚ
  elevation : Option ℚ
  feature_code : Option String
  country_code : Option String
  country : Option String
  country_id : Option Int
  timezone : Option String
  population : Option Int
  postcodes : Option (List String)
  admin1 : Option String
  admin2 : Option String
  admin3 : Option String
  admin4 : Option String

/-- Decode a `GeocodingResult`. -/
def decodeGeocodingResult : Json → Except String GeocodingResult
  | .obj fs => do
    let id ← optField fs "id" parseInt
    let name ← reqField fs "name" parseStr
    let latitude ← reqField fs "latitude" parseNum
    let longitude ← reqField fs "longitude" parseNum
    let elevation ← optField fs "elevation" parseNum
    let feature_code ← optField fs "feature_code" parseStr
    let country_code ← optField fs "country_code" parseStr
    let country ← optField fs "country" parseStr
    let country_id ← optField fs "country_id" parseInt
    let timezone ← optField fs "timezone" parseStr
    let population ← optField fs "population" parseInt
    let postcodes ← optField fs "postcodes" (parseList parseStr)
    let admin1 ← optField fs "admin1" parseStr
    let admin2 ← optField fs "admin2" parseStr
    let admin3 ← optField fs "admin3" parseStr
    let admin4 ← optField fs "admin4" parseStr
    pure { id, name, latitude, longitude, elevation, feature_code,
           country_code, country, country_id, timezone, population,
           postcodes, admin1, admin2, admin3, admin4 }
  | _ => .error "expected object"

/-- `GeocodingResponse` envelope: both fields optional. -/
structure GeocodingResponse where
  results : Option (List GeocodingResult)
  generationtime_ms : Option ℚ

/-- Decode a `GeocodingResponse` envelope. -/
def decodeGeocodingResponse : Json → Except String GeocodingResponse
  | .obj fs => do
    let results ← optField fs "results" (parseList decodeGeocodingResult)
    let generationtime_ms ← optField fs "generationtime_ms" parseNum
    pure { results, generationtime_ms }
  | _ => .error "expected object"

-- Tool layer (server.py): query-parameter assembly and call pipeline

/-- A query-parameter value as placed into the `params` dict. -/
inductive PValue where
  | num : ℚ → PValue
  | int : Int → PValue
  | str : String → PValue
deriving Repr, DecidableEq

/-- The `params` dict, in insertion order. -/
abbrev Params := List (String × PValue)

/-- Look a parameter up by key. -/
def lookupParam (ps : Params) (k : String) : Option PValue :=
  (ps.find? (fun p => p.1 == k)).map (fun p => p.2)

/-- Python truthiness of an `Optional[str]` argument (`if hourly:`):
`None` and the empty string are falsy. -/
def strTruthy : Option String → Bool
  | none => false
  | some s => !(s == "")

/-- `get_weather_forecast` parameter assembly (server.py lines 150-167). -/
def get_weather_forecast_params (latitude longitude : ℚ)
    (temperature_unit wind_speed_unit precipitation_unit timezone : String)
    (forecast_days : Int) (current_weather : Bool)
    (hourly daily : Option String) : Params :=
  let base : Params :=
    [("latitude", .num latitude), ("longitude", .num longitude),
     ("temperature_unit", .str temperature_unit),
     ("wind_speed_unit", .str wind_speed_unit),
     ("precipitation_unit", .str precipitation_unit),
     ("timezone", .str timezone), ("forecast_days", .int forecast_days)]
  let base := if current_weather then base ++ [("current_weather", .str "true")] else base
  let base := if strTruthy hourly then base ++ [("hourly", .str (hourly.getD ""))] else base
  if strTruthy daily then base ++ [("daily", .str (daily.getD ""))] else base

/-- `geocode_location` parameter assembly (server.py lines 248-253). -/
def geocode_location_params (name : String) (count : Int)
    (language format : String) : Params :=
  [("name", .str name), ("count", .int count),
   ("language", .str language), ("format", .str format)]

/-- `get_historical_weather` parameter assembly (server.py lines 301-316). -/
def get_historical_weather_params (latitude longitude : ℚ)
    (start_date end_date : String)
    (temperature_unit wind_speed_unit precipitation_unit timezone : String)
    (hourly daily : Option String) : Params :=
  let base : Params :=
    [("latitude", .num latitude), ("longitude", .num longitude),
     ("start_date", .str start_date), ("end_date", .str end_date),
     ("temperature_unit", .str temperature_unit),
     ("wind_speed_unit", .str wind_speed_unit),
     ("precipitation_unit", .str precipitation_unit),
     ("timezone", .str timezone)]
  let base := if strTruthy hourly then base ++ [("hourly", .str (hourly.getD ""))] else base
  if strTruthy daily then base ++ [("daily", .str (daily.getD ""))] else base

/-- The default hourly variable list of `get_air_quality`. -/
def AIR_QUALITY_DEFAULT_HOURLY : String :=
  "pm10,pm2_5,carbon_monoxide,nitrogen_dioxide,sulphur_dioxide,ozone,us_aqi,european_aqi"

/-- `get_air_quality` parameter assembly (server.py lines 352-365):
the default hourly set is substituted when `hourly` is falsy. -/
def get_air_quality_params (latitude longitude : ℚ) (timezone : String)
    (hourly : Option String) (domains : String) : Params :=
  let base : Params :=
    [("latitude", .num latitude), ("longitude", .num longitude),
     ("timezone", .str timezone), ("domains", .str domains)]
  if strTruthy hourly then base ++ [("hourly", .str (hourly.getD ""))]
  else base ++ [("hourly", .str AIR_QUALITY_DEFAULT_HOURLY)]

/-- The default hourly variable list of `get_marine_forecast`. -/
def MARINE_DEFAULT_HOURLY : String :=
  "wave_height,wave_direction,wave_period,wind_wave_height,swell_wave_height,sea_level_height_msl"

/-- `get_marine_forecast` parameter assembly (server.py lines 506-522). -/
def get_marine_forecast_params (latitude longitude : ℚ) (timezone : String)
    (hourly daily : Option String) (forecast_days : Int) : Params :=
  let base : Params :=
    [("latitude", .num latitude), ("longitude", .num longitude),
     ("timezone", .str timezone), ("forecast_days", .int forecast_days)]
  let base :=
    if strTruthy hourly then base ++ [("hourly", .str (hourly.getD ""))]
    else base ++ [("hourly", .str MARINE_DEFAULT_HOURLY)]
  if strTruthy daily then base ++ [("daily", .str (daily.getD ""))] else base

-- HTTP call pipeline: raise_for_status, then JSON decoding.

/-- An upstream HTTP response: status code and parsed JSON body. -/
structure HttpResponse where
  status : Nat
  body : Json

/-- httpx success statuses (`response.is_success`): the 2xx range. -/
def isSuccessStatus (s : Nat) : Bool := decide (200 ≤ s ∧ s < 300)

/-- `response.raise_for_status()`: errors on every non-2xx status. -/
def raise_for_status (r : HttpResponse) : Except String HttpResponse :=
  if isSuccessStatus r.status then .ok r
  else .error ("HTTP status " ++ toString r.status)

/-- The result of a `get_weather_forecast` call, as a function of the
upstream response: status check, then decode; an exception anywhere aborts
the whole call. -/
def get_weather_forecast_call (r : HttpResponse) : Except String WeatherForecast :=
  match raise_for_status r with
  | .error e => .error e
  | .ok r => decodeWeatherForecast r.body

/-- The result of a `get_marine_forecast` call, as a function of the
upstream response. -/
def get_marine_forecast_call (r : HttpResponse) : Except String MarineForecast :=
  match raise_for_status r with
  | .error e => .error e
  | .ok r => decodeMarineForecast r.body

-- Generic helper lemmas

theorem ebind_ok {α β : Type} (a : α) (f : α → Except String β) :
    (Except.ok a >>= f) = f a := rfl

theorem ebind_err {α β : Type} (e : String) (f : α → Except String β) :
    ((Except.error e : Except String α) >>= f) = Except.error e := rfl

theorem bind_eq_ok {α β : Type} {x : Except String α}
    {f : α → Except String β} {b : β} (h : (x >>= f) = .ok b) :
    ∃ a, x = .ok a ∧ f a = .ok b := by
  cases x with
  | error e => rw [ebind_err] at h; exact absurd h (by simp)
  | ok a => exact ⟨a, rfl, h⟩

theorem find?_eq_some_of_mem_of_nodup_keys {α : Type}
    (l : List (Int × α)) (hnd : (l.map Prod.fst).Nodup)
    {c : Int} {x : α} (hx : (c, x) ∈ l) :
    l.find? (fun p => p.1 == c) = some (c, x) := by
  induction l with
  | nil => exact absurd hx (List.not_mem_nil _)
  | cons a as ih =>
    rcases List.mem_cons.mp hx with h | h
    · subst h
      simp [List.find?]
    · have hnd2 : (a.1 :: as.map Prod.fst).Nodup := by simpa using hnd
      have ha : a.1 ≠ c := by
        intro hc
        have hcm : c ∈ as.map Prod.fst := by
          have := List.mem_map_of_mem Prod.fst h
          simpa using this
        exact (List.nodup_cons.mp hnd2).1 (hc ▸ hcm)
      have hnd' : (as.map Prod.fst).Nodup := (List.nodup_cons.mp hnd2).2
      have : (a.1 == c) = false := by simpa [beq_iff_eq] using ha
      simp [List.find?, this, ih hnd' h]

theorem find?_eq_none_of_not_mem_keys {α : Type}
    (l : List (Int × α)) {c : Int} (h : c ∉ l.map Prod.fst) :
    l.find? (fun p => p.1 == c) = none := by
  rw [List.find?_eq_none]
  intro x hx
  simp only [beq_iff_eq]
  intro hc
  exact h (hc ▸ List.mem_map_of_mem Prod.fst hx)

-- C2: weather-code interpretation

/-- C2: the weather-code interpretation is total over the integers: it
always returns a result whose `code` field echoes the input; for every code
in `WEATHER_CODES` it returns exactly the documented description/severity
pair (in particular code 61 ↦ ("Slight rain", "rain")); and for every
integer outside the table it returns the "Unknown weather code" description
and severity "unknown" — never an error. -/
theorem interpret_weather_code_total (code : Int) :
    (interpret_weather_code code).code = code
    ∧ (∀ d s, (code, (d, s)) ∈ WEATHER_CODES →
        interpret_weather_code code =
          { code := code, description := d, severity := s })
    ∧ (code ∉ WEATHER_CODES.map Prod.fst →
        interpret_weather_code code =
          { code := code,
            description := "Unknown weather code: " ++ toString code,
            severity := "unknown" })
    ∧ interpret_weather_code 61 =
        { code := 61, description := "Slight rain", severity := "rain" } := by
  refine ⟨?_, ?_, ?_, by decide⟩
  · cases hf : WEATHER_CODES.find? (fun p => p.1 == code) <;>
      simp [interpret_weather_code, hf]
  · intro d s hmem
    have hf := find?_eq_some_of_mem_of_nodup_keys WEATHER_CODES
      (by decide) hmem
    simp [interpret_weather_code, hf]
  · intro hnot
    have hf := find?_eq_none_of_not_mem_keys WEATHER_CODES hnot
    simp [interpret_weather_code, hf]

/-- C2 witness: concrete instances, code 61 in the table and code 200
outside it. -/
theorem interpret_weather_code_total_witness :
    interpret_weather_code 61 =
      { code := 61, description := "Slight rain", severity := "rain" }
    ∧ interpret_weather_code 200 =
      { code := 200,
        description := "Unknown weather code: " ++ toString (200 : Int),
        severity := "unknown" } :=
  ⟨(interpret_weather_code_total 61).2.1 "Slight rain" "rain" (by decide),
   (interpret_weather_code_total 200).2.2.1 (by decide)⟩

-- C6: default hourly variable sets

/-- C6: when no hourly list is supplied to the air-quality or marine tool,
the fixed documented default set is substituted into the `hourly` query
parameter; the marine default is exactly wave height, wave direction, wave
period, wind-wave height, swell-wave height, and sea-level height. -/
theorem default_hourly_substituted (latitude longitude : ℚ)
    (timezone domains : String) (forecast_days : Int) :
    lookupParam (get_air_quality_params latitude longitude timezone none domains)
        "hourly" = some (.str AIR_QUALITY_DEFAULT_HOURLY)
    ∧ lookupParam (get_marine_forecast_params latitude longitude timezone
        none none forecast_days) "hourly" = some (.str MARINE_DEFAULT_HOURLY)
    ∧ MARINE_DEFAULT_HOURLY = String.intercalate ","
        ["wave_height", "wave_direction", "wave_period", "wind_wave_height",
         "swell_wave_height", "sea_level_height_msl"]
    ∧ AIR_QUALITY_DEFAULT_HOURLY = String.intercalate ","
        ["pm10", "pm2_5", "carbon_monoxide", "nitrogen_dioxide",
         "sulphur_dioxide", "ozone", "us_aqi", "european_aqi"] := by
  exact ⟨rfl, rfl, by decide, by decide⟩

-- C8: no local range or ordering validation; values pass through unchanged

/-- C8: `forecast_days`, geocoding `count`, and `start_date`/`end_date` are
forwarded unchanged as query parameters for every value the caller supplies
(no range check, no `start ≤ end` check anywhere in the assembly). -/
theorem params_pass_through_unvalidated (latitude longitude : ℚ)
    (tu wsu pu tz nm lang fmt start_date end_date : String)
    (forecast_days count : Int) (cw : Bool) (hourly daily : Option String) :
    lookupParam (get_weather_forecast_params latitude longitude tu wsu pu tz
        forecast_days cw hourly daily) "forecast_days"
      = some (.int forecast_days)
    ∧ lookupParam (geocode_location_params nm count lang fmt) "count"
      = some (.int count)
    ∧ lookupParam (get_historical_weather_params latitude longitude
        start_date end_date tu wsu pu tz hourly daily) "start_date"
      = some (.str start_date)
    ∧ lookupParam (get_historical_weather_params latitude longitude
        start_date end_date tu wsu pu tz hourly daily) "end_date"
      = some (.str end_date)
    ∧ lookupParam (get_marine_forecast_params latitude longitude tz hourly
        daily forecast_days) "forecast_days" = some (.int forecast_days) := by
  refine ⟨?_, rfl, ?_, ?_, ?_⟩
  · simp only [get_weather_forecast_params]
    split <;> split <;> split <;> rfl
  · simp only [get_historical_weather_params]
    split <;> split <;> rfl
  · simp only [get_historical_weather_params]
    split <;> split <;> rfl
  · simp only [get_marine_forecast_params]
    split <;> split <;> rfl

-- C10: empty-string variable lists behave exactly like omitted ones

/-- C10: because presence is tested by Python truthiness, passing the empty
string for any optional hourly or daily variable list is identical to
passing no value: the forecast and historical tools omit the corresponding
parameter (hourly and daily alike), while air-quality and marine substitute
their default hourly set; the marine daily parameter is likewise omitted. -/
theorem empty_string_like_none (latitude longitude : ℚ)
    (tu wsu pu tz domains start_date end_date : String) (forecast_days : Int)
    (cw : Bool) (hourly daily : Option String) :
    get_weather_forecast_params latitude longitude tu wsu pu tz forecast_days
        cw (some "") daily
      = get_weather_forecast_params latitude longitude tu wsu pu tz
          forecast_days cw none daily
    ∧ get_weather_forecast_params latitude longitude tu wsu pu tz
        forecast_days cw hourly (some "")
      = get_weather_forecast_params latitude longitude tu wsu pu tz
          forecast_days cw hourly none
    ∧ get_historical_weather_params latitude longitude start_date end_date
        tu wsu pu tz (some "") daily
      = get_historical_weather_params latitude longitude start_date end_date
          tu wsu pu tz none daily
    ∧ get_historical_weather_params latitude longitude start_date end_date
        tu wsu pu tz hourly (some "")
      = get_historical_weather_params latitude longitude start_date end_date
          tu wsu pu tz hourly none
    ∧ get_air_quality_params latitude longitude tz (some "") domains
      = get_air_quality_params latitude longitude tz none domains
    ∧ lookupParam (get_air_quality_params latitude longitude tz (some "")
        domains) "hourly" = some (.str AIR_QUALITY_DEFAULT_HOURLY)
    ∧ get_marine_forecast_params latitude longitude tz (some "") daily
        forecast_days
      = get_marine_forecast_params latitude longitude tz none daily
          forecast_days
    ∧ get_marine_forecast_params latitude longitude tz hourly (some "")
        forecast_days
      = get_marine_forecast_params latitude longitude tz hourly none
          forecast_days
    ∧ lookupParam (get_marine_forecast_params latitude longitude tz (some "")
        none forecast_days) "hourly" = some (.str MARINE_DEFAULT_HOURLY) := by
  exact ⟨rfl, rfl, rfl, rfl, rfl, rfl, rfl, rfl, rfl⟩

-- C9: round-trip of literal argument values

/-- A canned JSON response echoing the requested coordinates. -/
def echoBody (latitude longitude : ℚ) : Json :=
  .obj [("latitude", .num latitude), ("longitude", .num longitude)]

/-- C9: the coordinates a caller passes appear unchanged in the encoded
query parameters, and decoding a canned response that echoes them yields an
envelope carrying exactly the same literal values (shown generally and at
latitude 51.5072 / longitude -0.1276). -/
theorem roundtrip_literal_values (latitude longitude : ℚ)
    (tu wsu pu tz : String) (forecast_days : Int) (cw : Bool)
    (hourly daily : Option String) :
    lookupParam (get_weather_forecast_params latitude longitude tu wsu pu tz
        forecast_days cw hourly daily) "latitude" = some (.num latitude)
    ∧ lookupParam (get_weather_forecast_params latitude longitude tu wsu pu
        tz forecast_days cw hourly daily) "longitude" = some (.num longitude)
    ∧ decodeWeatherForecast (echoBody latitude longitude) =
        .ok { latitude := latitude, longitude := longitude, elevation := none,
              timezone := none, timezone_abbreviation := none,
              current_weather := none, hourly := none, daily := none }
    ∧ get_weather_forecast_call ⟨200, echoBody (51.5072 : ℚ) (-0.1276 : ℚ)⟩ =
        .ok { latitude := (51.5072 : ℚ), longitude := (-0.1276 : ℚ),
              elevation := none, timezone := none,
              timezone_abbreviation := none, current_weather := none,
              hourly := none, daily := none } := by
  refine ⟨?_, ?_, rfl, rfl⟩
  · simp only [get_weather_forecast_params]
    split <;> split <;> split <;> rfl
  · simp only [get_weather_forecast_params]
    split <;> split <;> split <;> rfl

-- C4: non-success HTTP statuses and decode failures surface as errors

/-- C4: a tool call returns a success value only when the upstream status
was 2xx and the whole body decoded; every non-2xx status surfaces as an
error, and a decode failure aborts the call with an error — never a
partially-filled success result (shown for the forecast and marine tools). -/
theorem http_and_decode_failures_surface (r : HttpResponse) :
    (∀ x, get_weather_forecast_call r = .ok x →
        isSuccessStatus r.status = true ∧ decodeWeatherForecast r.body = .ok x)
    ∧ (isSuccessStatus r.status = false →
        (∃ e, get_weather_forecast_call r = .error e)
        ∧ (∃ e, get_marine_forecast_call r = .error e))
    ∧ (∀ e, decodeWeatherForecast r.body = .error e →
        ∃ e₂, get_weather_forecast_call r = .error e₂)
    ∧ (∀ x, get_marine_forecast_call r = .ok x →
        isSuccessStatus r.status = true ∧ decodeMarineForecast r.body = .ok x)
    ∧ (∀ e, decodeMarineForecast r.body = .error e →
        ∃ e₂, get_marine_forecast_call r = .error e₂) := by
  by_cases hs : isSuccessStatus r.status = true
  · have hr : raise_for_status r = .ok r := by simp [raise_for_status, hs]
    refine ⟨?_, ?_, ?_, ?_, ?_⟩
    · intro x hx
      rw [get_weather_forecast_call, hr] at hx
      exact ⟨hs, hx⟩
    · intro hf
      rw [hs] at hf
      cases hf
    · intro e he
      exact ⟨e, by rw [get_weather_forecast_call, hr]; exact he⟩
    · intro x hx
      rw [get_marine_forecast_call, hr] at hx
      exact ⟨hs, hx⟩
    · intro e he
      exact ⟨e, by rw [get_marine_forecast_call, hr]; exact he⟩
  · have hs' : isSuccessStatus r.status = false := by
      simpa using hs
    have hr : raise_for_status r =
        .error ("HTTP status " ++ toString r.status) := by
      simp [raise_for_status, hs']
    refine ⟨?_, ?_, ?_, ?_, ?_⟩
    · intro x hx
      rw [get_weather_forecast_call, hr] at hx
      cases hx
    · intro _
      exact ⟨⟨_, by rw [get_weather_forecast_call, hr]⟩,
             ⟨_, by rw [get_marine_forecast_call, hr]⟩⟩
    · intro e _
      exact ⟨_, by rw [get_weather_forecast_call, hr]⟩
    · intro x hx
      rw [get_marine_forecast_call, hr] at hx
      cases hx
    · intro e _
      exact ⟨_, by rw [get_marine_forecast_call, hr]⟩

/-- C4 witness: a 404 response errors on both tools, and a decode failure
on a 200 response with a non-object body errors as well. -/
theorem http_and_decode_failures_surface_witness :
    ((∃ e, get_weather_forecast_call ⟨404, Json.null⟩ = .error e)
      ∧ (∃ e, get_marine_forecast_call ⟨404, Json.null⟩ = .error e))
    ∧ (∃ e₂, get_weather_forecast_call ⟨200, Json.null⟩ = .error e₂) :=
  ⟨(http_and_decode_failures_surface ⟨404, Json.null⟩).2.1 (by decide),
   (http_and_decode_failures_surface ⟨200, Json.null⟩).2.2.1
     "expected object" rfl⟩

-- Length bookkeeping for the parallel-sequence invariant (C1)

theorem pure_eq_ok {α : Type} (a : α) : (pure a : Except String α) = .ok a := rfl

theorem mapME_length {α β : Type} {p : α → Except String β} :
    ∀ {xs : List α} {ys : List β}, mapME p xs = .ok ys → ys.length = xs.length := by
  intro xs
  induction xs with
  | nil =>
    intro ys h
    simp only [mapME] at h
    injection h with hh
    subst hh
    rfl
  | cons x xs ih =>
    intro ys h
    simp only [mapME] at h
    obtain ⟨y, _, h⟩ := bind_eq_ok h
    obtain ⟨ys2, hys, h⟩ := bind_eq_ok h
    rw [pure_eq_ok] at h
    injection h with hh
    subst hh
    simp [ih hys]

theorem parseList_length {β : Type} {p : Json → Except String β} {j : Json}
    {ys : List β} (h : parseList p j = .ok ys) :
    ∃ a, j = .arr a ∧ ys.length = a.length := by
  cases j with
  | arr a => simp only [parseList] at h; exact ⟨a, rfl, mapME_length h⟩
  | null => simp [parseList] at h
  | bool b => simp [parseList] at h
  | num q => simp [parseList] at h
  | str s => simp [parseList] at h
  | obj fs => simp [parseList] at h

theorem emap_some_eq_ok {α : Type} {x : Except String α} {y : α}
    (h : x.map some = .ok (some y)) : x = .ok y := by
  cases x with
  | error e => simp [Except.map] at h
  | ok a =>
    simp only [Except.map, Except.ok.injEq, Option.some.injEq] at h
    rw [h]

theorem optField_list_length {β : Type} {p : Json → Except String β}
    {fs : List (String × Json)} {k : String} {ys : List β}
    (h : optField fs k (parseList p) = .ok (some ys)) :
    ∃ a, getField fs k = some (.arr a) ∧ ys.length = a.length := by
  unfold optField at h
  cases hg : getField fs k with
  | none => rw [hg] at h; simp at h
  | some v =>
    rw [hg] at h
    cases v with
    | null => simp at h
    | arr a2 =>
      obtain ⟨a, ha, hl⟩ := parseList_length (emap_some_eq_ok h)
      injection ha with haa
      subst haa
      exact ⟨a2, rfl, hl⟩
    | bool b => obtain ⟨a, ha, _⟩ := parseList_length (emap_some_eq_ok h); cases ha
    | num q => obtain ⟨a, ha, _⟩ := parseList_length (emap_some_eq_ok h); cases ha
    | str s => obtain ⟨a, ha, _⟩ := parseList_length (emap_some_eq_ok h); cases ha
    | obj fs2 => obtain ⟨a, ha, _⟩ := parseList_length (emap_some_eq_ok h); cases ha

theorem reqField_list_length {β : Type} {p : Json → Except String β}
    {fs : List (String × Json)} {k : String} {ys : List β}
    (h : reqField fs k (parseList p) = .ok ys) :
    ∃ a, getField fs k = some (.arr a) ∧ ys.length = a.length := by
  unfold reqField at h
  cases hg : getField fs k with
  | none => rw [hg] at h; cases h
  | some v =>
    rw [hg] at h
    obtain ⟨a, ha, hl⟩ := parseList_length h
    subst ha
    exact ⟨a, rfl, hl⟩

/-- Does a populated optional sequence have the given length? -/
def optLenOK {α : Type} (o : Option (List α)) (n : Nat) : Bool :=
  match o with
  | none => true
  | some xs => xs.length == n

/-- Does a present sequence field of the input object have the given length? -/
def seqLenOK (fs : List (String × Json)) (k : String) (n : Nat) : Bool :=
  match getField fs k with
  | some (.arr a) => a.length == n
  | _ => true

theorem optLenOK_of_wf {β : Type} {p : Json → Except String β}
    {fs : List (String × Json)} {k : String} {o : Option (List β)} {n m : Nat}
    (hfield : optField fs k (parseList p) = .ok o)
    (hwf : seqLenOK fs k m = true) (hnm : n = m) :
    optLenOK o n = true := by
  cases o with
  | none => rfl
  | some ys =>
    obtain ⟨a, hga, hlen⟩ := optField_list_length hfield
    unfold seqLenOK at hwf
    rw [hga] at hwf
    simp only [beq_iff_eq] at hwf
    simp only [optLenOK, beq_iff_eq]
    omega

/-- All populated declared sequences of an `HourlyWeather` record have the
length of its timestamp sequence. -/
def hourlyLengthsOK (h : HourlyWeather) : Bool :=
  optLenOK h.temperature_2m h.time.length
  && optLenOK h.relative_humidity_2m h.time.length
  && optLenOK h.precipitation h.time.length
  && optLenOK h.rain h.time.length
  && optLenOK h.showers h.time.length
  && optLenOK h.snowfall h.time.length
  && optLenOK h.cloud_cover h.time.length
  && optLenOK h.wind_speed_10m h.time.length
  && optLenOK h.wind_direction_10m h.time.length
  && optLenOK h.pressure_msl h.time.length

/-- All populated declared sequences of a `DailyWeather` record have the
length of its timestamp sequence. -/
def dailyLengthsOK (d : DailyWeather) : Bool :=
  optLenOK d.temperature_2m_max d.time.length
  && optLenOK d.temperature_2m_min d.time.length
  && optLenOK d.precipitation_sum d.time.length
  && optLenOK d.precipitation_hours d.time.length
  && optLenOK d.rain_sum d.time.length
  && optLenOK d.sunrise d.time.length
  && optLenOK d.sunset d.time.length
  && optLenOK d.wind_speed_10m_max d.time.length

/-- A well-formed hourly input block: every present declared sequence is an
array of the same length as the timestamp array. -/
def hourlyInputWF (fs : List (String × Json)) : Bool :=
  match getField fs "time" with
  | some (.arr t) =>
      seqLenOK fs "temperature_2m" t.length
      && seqLenOK fs "relative_humidity_2m" t.length
      && seqLenOK fs "precipitation" t.length
      && seqLenOK fs "rain" t.length
      && seqLenOK fs "showers" t.length
      && seqLenOK fs "snowfall" t.length
      && seqLenOK fs "cloud_cover" t.length
      && seqLenOK fs "wind_speed_10m" t.length
      && seqLenOK fs "wind_direction_10m" t.length
      && seqLenOK fs "pressure_msl" t.length
  | _ => false

/-- A well-formed daily input block. -/
def dailyInputWF (fs : List (String × Json)) : Bool :=
  match getField fs "time" with
  | some (.arr t) =>
      seqLenOK fs "temperature_2m_max" t.length
      && seqLenOK fs "temperature_2m_min" t.length
      && seqLenOK fs "precipitation_sum" t.length
      && seqLenOK fs "precipitation_hours" t.length
      && seqLenOK fs "rain_sum" t.length
      && seqLenOK fs "sunrise" t.length
      && seqLenOK fs "sunset" t.length
      && seqLenOK fs "wind_speed_10m_max" t.length
  | _ => false

/-- All populated declared sequences of an `HourlyAirQuality` record have
the length of its timestamp sequence. -/
def hourlyAirQualityLengthsOK (h : HourlyAirQuality) : Bool :=
  optLenOK h.pm10 h.time.length
  && optLenOK h.pm2_5 h.time.length
  && optLenOK h.carbon_monoxide h.time.length
  && optLenOK h.nitrogen_dioxide h.time.length
  && optLenOK h.sulphur_dioxide h.time.length
  && optLenOK h.ozone h.time.length
  && optLenOK h.dust h.time.length
  && optLenOK h.uv_index h.time.length
  && optLenOK h.us_aqi h.time.length
  && optLenOK h.european_aqi h.time.length

/-- A well-formed hourly air-quality input block. -/
def airQualityInputWF (fs : List (String × Json)) : Bool :=
  match getField fs "time" with
  | some (.arr t) =>
      seqLenOK fs "pm10" t.length
      && seqLenOK fs "pm2_5" t.length
      && seqLenOK fs "carbon_monoxide" t.length
      && seqLenOK fs "nitrogen_dioxide" t.length
      && seqLenOK fs "sulphur_dioxide" t.length
      && seqLenOK fs "ozone" t.length
      && seqLenOK fs "dust" t.length
      && seqLenOK fs "uv_index" t.length
      && seqLenOK fs "us_aqi" t.length
      && seqLenOK fs "european_aqi" t.length
  | _ => false

/-- All populated declared sequences of an `HourlyMarine` record have the
length of its timestamp sequence. -/
def hourlyMarineLengthsOK (h : HourlyMarine) : Bool :=
  optLenOK h.wave_height h.time.length
  && optLenOK h.wave_direction h.time.length
  && optLenOK h.wave_period h.time.length
  && optLenOK h.wind_wave_height h.time.length
  && optLenOK h.wind_wave_direction h.time.length
  && optLenOK h.wind_wave_period h.time.length
  && optLenOK h.swell_wave_height h.time.length
  && optLenOK h.swell_wave_direction h.time.length
  && optLenOK h.swell_wave_period h.time.length
  && optLenOK h.ocean_current_velocity h.time.length
  && optLenOK h.ocean_current_direction h.time.length
  && optLenOK h.sea_level_height_msl h.time.length

/-- A well-formed hourly marine input block. -/
def hourlyMarineInputWF (fs : List (String × Json)) : Bool :=
  match getField fs "time" with
  | some (.arr t) =>
      seqLenOK fs "wave_height" t.length
      && seqLenOK fs "wave_direction" t.length
      && seqLenOK fs "wave_period" t.length
      && seqLenOK fs "wind_wave_height" t.length
      && seqLenOK fs "wind_wave_direction" t.length
      && seqLenOK fs "wind_wave_period" t.length
      && seqLenOK fs "swell_wave_height" t.length
      && seqLenOK fs "swell_wave_direction" t.length
      && seqLenOK fs "swell_wave_period" t.length
      && seqLenOK fs "ocean_current_velocity" t.length
      && seqLenOK fs "ocean_current_direction" t.length
      && seqLenOK fs "sea_level_height_msl" t.length
  | _ => false

/-- All populated declared sequences of a `DailyMarine` record have the
length of its timestamp sequence. -/
def dailyMarineLengthsOK (d : DailyMarine) : Bool :=
  optLenOK d.wave_height_max d.time.length
  && optLenOK d.wave_direction_dominant d.time.length
  && optLenOK d.wave_period_max d.time.length

/-- A well-formed daily marine input block. -/
def dailyMarineInputWF (fs : List (String × Json)) : Bool :=
  match getField fs "time" with
  | some (.arr t) =>
      seqLenOK fs "wave_height_max" t.length
      && seqLenOK fs "wave_direction_dominant" t.length
      && seqLenOK fs "wave_period_max" t.length
  | _ => false

-- C1: parallel-sequence lengths

/-- Decoding enforces no length check: this concrete hourly block with one
timestamp and two temperature entries decodes successfully, into a record
whose populated sequence lengths differ (refuting the claim as stated). -/
def c1cexFields : List (String × Json) :=
  [("time", .arr [.str "2024-01-01T00:00"]),
   ("temperature_2m", .arr [.num 1, .num 2])]

/-- C1 counterexample: a response whose `temperature_2m` has two entries
against a single timestamp decodes without error, and the decoded record
violates the equal-length invariant (time length 1, temperature length 2). -/
theorem series_lengths_counterexample :
    (decodeHourlyWeather (.obj c1cexFields)).map hourlyLengthsOK = .ok false
    ∧ (decodeHourlyWeather (.obj c1cexFields)).map
        (fun h => (h.time.length, h.temperature_2m.map List.length))
      = .ok (1, some 2) :=
  ⟨rfl, rfl⟩

/-- C1 (amended): decoding performs no length validation, but it preserves
sequence lengths across all the time-series models — hourly and daily
weather (forecast/historical), hourly air quality, and hourly and daily
marine: decoding a well-formed series block (one whose present declared
sequences are arrays of the same length as the timestamp array) yields a
record all of whose populated declared sequences have length equal to the
timestamp sequence's length. -/
theorem series_lengths_preserved (fs : List (String × Json)) :
    (∀ h, decodeHourlyWeather (.obj fs) = .ok h →
        hourlyInputWF fs = true → hourlyLengthsOK h = true)
    ∧ (∀ d, decodeDailyWeather (.obj fs) = .ok d →
        dailyInputWF fs = true → dailyLengthsOK d = true)
    ∧ (∀ h, decodeHourlyAirQuality (.obj fs) = .ok h →
        airQualityInputWF fs = true → hourlyAirQualityLengthsOK h = true)
    ∧ (∀ h, decodeHourlyMarine (.obj fs) = .ok h →
        hourlyMarineInputWF fs = true → hourlyMarineLengthsOK h = true)
    ∧ (∀ d, decodeDailyMarine (.obj fs) = .ok d →
        dailyMarineInputWF fs = true → dailyMarineLengthsOK d = true) := by
  refine ⟨?_, ?_, ?_, ?_, ?_⟩
  · intro h hdec hwf
    simp only [decodeHourlyWeather] at hdec
    obtain ⟨t, ht, hdec⟩ := bind_eq_ok hdec
    obtain ⟨o1, h1, hdec⟩ := bind_eq_ok hdec
    obtain ⟨o2, h2, hdec⟩ := bind_eq_ok hdec
    obtain ⟨o3, h3, hdec⟩ := bind_eq_ok hdec
    obtain ⟨o4, h4, hdec⟩ := bind_eq_ok hdec
    obtain ⟨o5, h5, hdec⟩ := bind_eq_ok hdec
    obtain ⟨o6, h6, hdec⟩ := bind_eq_ok hdec
    obtain ⟨o7, h7, hdec⟩ := bind_eq_ok hdec
    obtain ⟨o8, h8, hdec⟩ := bind_eq_ok hdec
    obtain ⟨o9, h9, hdec⟩ := bind_eq_ok hdec
    obtain ⟨o10, h10, hdec⟩ := bind_eq_ok hdec
    rw [pure_eq_ok] at hdec
    injection hdec with hh
    subst hh
    obtain ⟨ta, hta, htl⟩ := reqField_list_length ht
    unfold hourlyInputWF at hwf
    rw [hta] at hwf
    simp only [Bool.and_eq_true] at hwf
    obtain ⟨⟨⟨⟨⟨⟨⟨⟨⟨w1, w2⟩, w3⟩, w4⟩, w5⟩, w6⟩, w7⟩, w8⟩, w9⟩, w10⟩ := hwf
    simp only [hourlyLengthsOK, Bool.and_eq_true]
    exact ⟨⟨⟨⟨⟨⟨⟨⟨⟨optLenOK_of_wf h1 w1 htl, optLenOK_of_wf h2 w2 htl⟩,
      optLenOK_of_wf h3 w3 htl⟩, optLenOK_of_wf h4 w4 htl⟩,
      optLenOK_of_wf h5 w5 htl⟩, optLenOK_of_wf h6 w6 htl⟩,
      optLenOK_of_wf h7 w7 htl⟩, optLenOK_of_wf h8 w8 htl⟩,
      optLenOK_of_wf h9 w9 htl⟩, optLenOK_of_wf h10 w10 htl⟩
  · intro d hdec hwf
    simp only [decodeDailyWeather] at hdec
    obtain ⟨t, ht, hdec⟩ := bind_eq_ok hdec
    obtain ⟨o1, h1, hdec⟩ := bind_eq_ok hdec
    obtain ⟨o2, h2, hdec⟩ := bind_eq_ok hdec
    obtain ⟨o3, h3, hdec⟩ := bind_eq_ok hdec
    obtain ⟨o4, h4, hdec⟩ := bind_eq_ok hdec
    obtain ⟨o5, h5, hdec⟩ := bind_eq_ok hdec
    obtain ⟨o6, h6, hdec⟩ := bind_eq_ok hdec
    obtain ⟨o7, h7, hdec⟩ := bind_eq_ok hdec
    obtain ⟨o8, h8, hdec⟩ := bind_eq_ok hdec
    rw [pure_eq_ok] at hdec
    injection hdec with hh
    subst hh
    obtain ⟨ta, hta, htl⟩ := reqField_list_length ht
    unfold dailyInputWF at hwf
    rw [hta] at hwf
    simp only [Bool.and_eq_true] at hwf
    obtain ⟨⟨⟨⟨⟨⟨⟨w1, w2⟩, w3⟩, w4⟩, w5⟩, w6⟩, w7⟩, w8⟩ := hwf
    simp only [dailyLengthsOK, Bool.and_eq_true]
    exact ⟨⟨⟨⟨⟨⟨⟨optLenOK_of_wf h1 w1 htl, optLenOK_of_wf h2 w2 htl⟩,
      optLenOK_of_wf h3 w3 htl⟩, optLenOK_of_wf h4 w4 htl⟩,
      optLenOK_of_wf h5 w5 htl⟩, optLenOK_of_wf h6 w6 htl⟩,
      optLenOK_of_wf h7 w7 htl⟩, optLenOK_of_wf h8 w8 htl⟩
  · intro h hdec hwf
    simp only [decodeHourlyAirQuality] at hdec
    obtain ⟨t, ht, hdec⟩ := bind_eq_ok hdec
    obtain ⟨o1, h1, hdec⟩ := bind_eq_ok hdec
    obtain ⟨o2, h2, hdec⟩ := bind_eq_ok hdec
    obtain ⟨o3, h3, hdec⟩ := bind_eq_ok hdec
    obtain ⟨o4, h4, hdec⟩ := bind_eq_ok hdec
    obtain ⟨o5, h5, hdec⟩ := bind_eq_ok hdec
    obtain ⟨o6, h6, hdec⟩ := bind_eq_ok hdec
    obtain ⟨o7, h7, hdec⟩ := bind_eq_ok hdec
    obtain ⟨o8, h8, hdec⟩ := bind_eq_ok hdec
    obtain ⟨o9, h9, hdec⟩ := bind_eq_ok hdec
    obtain ⟨o10, h10, hdec⟩ := bind_eq_ok hdec
    rw [pure_eq_ok] at hdec
    injection hdec with hh
    subst hh
    obtain ⟨ta, hta, htl⟩ := reqField_list_length ht
    unfold airQualityInputWF at hwf
    rw [hta] at hwf
    simp only [Bool.and_eq_true] at hwf
    obtain ⟨⟨⟨⟨⟨⟨⟨⟨⟨w1, w2⟩, w3⟩, w4⟩, w5⟩, w6⟩, w7⟩, w8⟩, w9⟩, w10⟩ := hwf
    simp only [hourlyAirQualityLengthsOK, Bool.and_eq_true]
    exact ⟨⟨⟨⟨⟨⟨⟨⟨⟨optLenOK_of_wf h1 w1 htl, optLenOK_of_wf h2 w2 htl⟩,
      optLenOK_of_wf h3 w3 htl⟩, optLenOK_of_wf h4 w4 htl⟩,
      optLenOK_of_wf h5 w5 htl⟩, optLenOK_of_wf h6 w6 htl⟩,
      optLenOK_of_wf h7 w7 htl⟩, optLenOK_of_wf h8 w8 htl⟩,
      optLenOK_of_wf h9 w9 htl⟩, optLenOK_of_wf h10 w10 htl⟩
  · intro h hdec hwf
    simp only [decodeHourlyMarine] at hdec
    obtain ⟨t, ht, hdec⟩ := bind_eq_ok hdec
    obtain ⟨o1, h1, hdec⟩ := bind_eq_ok hdec
    obtain ⟨o2, h2, hdec⟩ := bind_eq_ok hdec
    obtain ⟨o3, h3, hdec⟩ := bind_eq_ok hdec
    obtain ⟨o4, h4, hdec⟩ := bind_eq_ok hdec
    obtain ⟨o5, h5, hdec⟩ := bind_eq_ok hdec
    obtain ⟨o6, h6, hdec⟩ := bind_eq_ok hdec
    obtain ⟨o7, h7, hdec⟩ := bind_eq_ok hdec
    obtain ⟨o8, h8, hdec⟩ := bind_eq_ok hdec
    obtain ⟨o9, h9, hdec⟩ := bind_eq_ok hdec
    obtain ⟨o10, h10, hdec⟩ := bind_eq_ok hdec
    obtain ⟨o11, h11, hdec⟩ := bind_eq_ok hdec
    obtain ⟨o12, h12, hdec⟩ := bind_eq_ok hdec
    rw [pure_eq_ok] at hdec
    injection hdec with hh
    subst hh
    obtain ⟨ta, hta, htl⟩ := reqField_list_length ht
    unfold hourlyMarineInputWF at hwf
    rw [hta] at hwf
    simp only [Bool.and_eq_true] at hwf
    obtain ⟨⟨⟨⟨⟨⟨⟨⟨⟨⟨⟨w1, w2⟩, w3⟩, w4⟩, w5⟩, w6⟩, w7⟩, w8⟩, w9⟩, w10⟩,
      w11⟩, w12⟩ := hwf
    simp only [hourlyMarineLengthsOK, Bool.and_eq_true]
    exact ⟨⟨⟨⟨⟨⟨⟨⟨⟨⟨⟨optLenOK_of_wf h1 w1 htl, optLenOK_of_wf h2 w2 htl⟩,
      optLenOK_of_wf h3 w3 htl⟩, optLenOK_of_wf h4 w4 htl⟩,
      optLenOK_of_wf h5 w5 htl⟩, optLenOK_of_wf h6 w6 htl⟩,
      optLenOK_of_wf h7 w7 htl⟩, optLenOK_of_wf h8 w8 htl⟩,
      optLenOK_of_wf h9 w9 htl⟩, optLenOK_of_wf h10 w10 htl⟩,
      optLenOK_of_wf h11 w11 htl⟩, optLenOK_of_wf h12 w12 htl⟩
  · intro d hdec hwf
    simp only [decodeDailyMarine] at hdec
    obtain ⟨t, ht, hdec⟩ := bind_eq_ok hdec
    obtain ⟨o1, h1, hdec⟩ := bind_eq_ok hdec
    obtain ⟨o2, h2, hdec⟩ := bind_eq_ok hdec
    obtain ⟨o3, h3, hdec⟩ := bind_eq_ok hdec
    rw [pure_eq_ok] at hdec
    injection hdec with hh
    subst hh
    obtain ⟨ta, hta, htl⟩ := reqField_list_length ht
    unfold dailyMarineInputWF at hwf
    rw [hta] at hwf
    simp only [Bool.and_eq_true] at hwf
    obtain ⟨⟨w1, w2⟩, w3⟩ := hwf
    simp only [dailyMarineLengthsOK, Bool.and_eq_true]
    exact ⟨⟨optLenOK_of_wf h1 w1 htl, optLenOK_of_wf h2 w2 htl⟩,
      optLenOK_of_wf h3 w3 htl⟩

/-- A well-formed two-hour hourly block for the C1 witness. -/
def c1okHourlyFields : List (String × Json) :=
  [("time", .arr [.str "a", .str "b"]),
   ("temperature_2m", .arr [.num 1, .num 2])]

/-- The record `c1okHourlyFields` decodes to. -/
def c1okHourlyRec : HourlyWeather :=
  { time := ["a", "b"], temperature_2m := some [1, 2],
    relative_humidity_2m := none, precipitation := none, rain := none,
    showers := none, snowfall := none, cloud_cover := none,
    wind_speed_10m := none, wind_direction_10m := none, pressure_msl := none,
    extra := [] }

/-- A well-formed one-day daily block for the C1 witness. -/
def c1okDailyFields : List (String × Json) :=
  [("time", .arr [.str "d1"]), ("sunrise", .arr [.str "s1"])]

/-- The record `c1okDailyFields` decodes to. -/
def c1okDailyRec : DailyWeather :=
  { time := ["d1"], temperature_2m_max := none, temperature_2m_min := none,
    precipitation_sum := none, precipitation_hours := none, rain_sum := none,
    sunrise := some ["s1"], sunset := none, wind_speed_10m_max := none,
    extra := [] }

/-- A well-formed one-hour air-quality block for the C1 witness. -/
def c1okAirFields : List (String × Json) :=
  [("time", .arr [.str "a"]), ("pm10", .arr [.null])]

/-- The record `c1okAirFields` decodes to. -/
def c1okAirRec : HourlyAirQuality :=
  { time := ["a"], pm10 := some [none], pm2_5 := none,
    carbon_monoxide := none, nitrogen_dioxide := none,
    sulphur_dioxide := none, ozone := none, dust := none, uv_index := none,
    us_aqi := none, european_aqi := none, extra := [] }

/-- A well-formed one-hour marine block for the C1 witness. -/
def c1okMarineFields : List (String × Json) :=
  [("time", .arr [.str "a"]), ("sea_level_height_msl", .arr [.num 1])]

/-- The record `c1okMarineFields` decodes to. -/
def c1okMarineRec : HourlyMarine :=
  { time := ["a"], wave_height := none, wave_direction := none,
    wave_period := none, wind_wave_height := none,
    wind_wave_direction := none, wind_wave_period := none,
    swell_wave_height := none, swell_wave_direction := none,
    swell_wave_period := none, ocean_current_velocity := none,
    ocean_current_direction := none, sea_level_height_msl := some [some 1],
    extra := [] }

/-- A well-formed one-day daily marine block for the C1 witness. -/
def c1okDailyMarineFields : List (String × Json) :=
  [("time", .arr [.str "d"]), ("wave_height_max", .arr [.num 2])]

/-- The record `c1okDailyMarineFields` decodes to. -/
def c1okDailyMarineRec : DailyMarine :=
  { time := ["d"], wave_height_max := some [some 2],
    wave_direction_dominant := none, wave_period_max := none, extra := [] }

/-- C1 witness: concrete well-formed hourly/daily weather, air-quality and
marine blocks whose decoded records satisfy the equal-length invariant. -/
theorem series_lengths_preserved_witness :
    hourlyLengthsOK c1okHourlyRec = true
    ∧ dailyLengthsOK c1okDailyRec = true
    ∧ hourlyAirQualityLengthsOK c1okAirRec = true
    ∧ hourlyMarineLengthsOK c1okMarineRec = true
    ∧ dailyMarineLengthsOK c1okDailyMarineRec = true :=
  ⟨(series_lengths_preserved c1okHourlyFields).1 c1okHourlyRec rfl rfl,
   (series_lengths_preserved c1okDailyFields).2.1 c1okDailyRec rfl rfl,
   (series_lengths_preserved c1okAirFields).2.2.1 c1okAirRec rfl rfl,
   (series_lengths_preserved c1okMarineFields).2.2.2.1 c1okMarineRec rfl rfl,
   (series_lengths_preserved c1okDailyMarineFields).2.2.2.2
     c1okDailyMarineRec rfl rfl⟩

-- C3: unknown fields — ignored by envelopes, retained by series blocks

theorem getField_cons_ne {k q : String} {v : Json} {fs : List (String × Json)}
    (hne : ¬(k = q)) : getField ((k, v) :: fs) q = getField fs q := by
  have hb : (k == q) = false := beq_eq_false_iff_ne.mpr hne
  have hf : ((k, v) :: fs).find? (fun p => p.1 == q)
      = fs.find? (fun p => p.1 == q) :=
    List.find?_cons_of_neg _ (by simp [hb])
  simp [getField, hf]

theorem reqField_cons_ne {α : Type} {k q : String} {v : Json}
    {fs : List (String × Json)} {p : Json → Except String α}
    (hne : ¬(k = q)) : reqField ((k, v) :: fs) q p = reqField fs q p := by
  unfold reqField
  rw [getField_cons_ne hne]

theorem optField_cons_ne {α : Type} {k q : String} {v : Json}
    {fs : List (String × Json)} {p : Json → Except String α}
    (hne : ¬(k = q)) : optField ((k, v) :: fs) q p = optField fs q p := by
  unfold optField
  rw [getField_cons_ne hne]

theorem keyInList_eq_false {keys : List String} {k : String} (hk : k ∉ keys) :
    keyInList keys k = false := by
  unfold keyInList
  rw [List.any_eq_false]
  intro q hq
  simp only [beq_iff_eq]
  intro he
  exact hk (he ▸ hq)

theorem filter_extra_cons {keys : List String} {k : String} {v : Json}
    {fs : List (String × Json)} (hk : k ∉ keys) :
    ((k, v) :: fs).filter (fun p => !(keyInList keys p.1))
      = (k, v) :: fs.filter (fun p => !(keyInList keys p.1)) := by
  rw [List.filter_cons]
  simp [keyInList_eq_false hk]

/-- The field names declared on the `WeatherForecast` envelope. -/
def weatherForecastKeys : List String :=
  ["latitude", "longitude", "elevation", "timezone", "timezone_abbreviation",
   "current_weather", "hourly", "daily"]

theorem decodeWeatherForecast_ignores_unknown {k : String} {v : Json}
    {fs : List (String × Json)} (hk : k ∉ weatherForecastKeys) :
    decodeWeatherForecast (.obj ((k, v) :: fs))
      = decodeWeatherForecast (.obj fs) := by
  simp only [weatherForecastKeys, List.mem_cons, List.not_mem_nil,
    or_false] at hk
  push_neg at hk
  obtain ⟨h1, h2, h3, h4, h5, h6, h7, h8⟩ := hk
  simp only [decodeWeatherForecast, reqField_cons_ne h1, reqField_cons_ne h2,
    optField_cons_ne h3, optField_cons_ne h4, optField_cons_ne h5,
    optField_cons_ne h6, optField_cons_ne h7, optField_cons_ne h8]

/-- The field names declared on the `HistoricalWeather` envelope. -/
def historicalWeatherKeys : List String :=
  ["latitude", "longitude", "elevation", "timezone", "timezone_abbreviation",
   "hourly", "daily"]

theorem decodeHistoricalWeather_ignores_unknown {k : String} {v : Json}
    {fs : List (String × Json)} (hk : k ∉ historicalWeatherKeys) :
    decodeHistoricalWeather (.obj ((k, v) :: fs))
      = decodeHistoricalWeather (.obj fs) := by
  simp only [historicalWeatherKeys, List.mem_cons, List.not_mem_nil,
    or_false] at hk
  push_neg at hk
  obtain ⟨h1, h2, h3, h4, h5, h6, h7⟩ := hk
  simp only [decodeHistoricalWeather, reqField_cons_ne h1,
    reqField_cons_ne h2, optField_cons_ne h3, optField_cons_ne h4,
    optField_cons_ne h5, optField_cons_ne h6, optField_cons_ne h7]

/-- The field names declared on the `AirQualityResponse` envelope. -/
def airQualityResponseKeys : List String :=
  ["latitude", "longitude", "elevation", "timezone", "hourly"]

theorem decodeAirQualityResponse_ignores_unknown {k : String} {v : Json}
    {fs : List (String × Json)} (hk : k ∉ airQualityResponseKeys) :
    decodeAirQualityResponse (.obj ((k, v) :: fs))
      = decodeAirQualityResponse (.obj fs) := by
  simp only [airQualityResponseKeys, List.mem_cons, List.not_mem_nil,
    or_false] at hk
  push_neg at hk
  obtain ⟨h1, h2, h3, h4, h5⟩ := hk
  simp only [decodeAirQualityResponse, reqField_cons_ne h1,
    reqField_cons_ne h2, optField_cons_ne h3, optField_cons_ne h4,
    optField_cons_ne h5]

/-- The field names declared on the `MarineForecast` envelope. -/
def marineForecastKeys : List String :=
  ["latitude", "longitude", "elevation", "timezone", "hourly", "daily"]

theorem decodeMarineForecast_ignores_unknown {k : String} {v : Json}
    {fs : List (String × Json)} (hk : k ∉ marineForecastKeys) :
    decodeMarineForecast (.obj ((k, v) :: fs))
      = decodeMarineForecast (.obj fs) := by
  simp only [marineForecastKeys, List.mem_cons, List.not_mem_nil,
    or_false] at hk
  push_neg at hk
  obtain ⟨h1, h2, h3, h4, h5, h6⟩ := hk
  simp only [decodeMarineForecast, reqField_cons_ne h1, reqField_cons_ne h2,
    optField_cons_ne h3, optField_cons_ne h4, optField_cons_ne h5,
    optField_cons_ne h6]

/-- The field names declared on the `GeocodingResponse` envelope. -/
def geocodingResponseKeys : List String :=
  ["results", "generationtime_ms"]

theorem decodeGeocodingResponse_ignores_unknown {k : String} {v : Json}
    {fs : List (String × Json)} (hk : k ∉ geocodingResponseKeys) :
    decodeGeocodingResponse (.obj ((k, v) :: fs))
      = decodeGeocodingResponse (.obj fs) := by
  simp only [geocodingResponseKeys, List.mem_cons, List.not_mem_nil,
    or_false] at hk
  push_neg at hk
  obtain ⟨h1, h2⟩ := hk
  simp only [decodeGeocodingResponse, optField_cons_ne h1,
    optField_cons_ne h2]

theorem decodeHourlyWeather_retains_unknown {k : String} {v : Json}
    {fs : List (String × Json)} {h : HourlyWeather}
    (hk : k ∉ hourlyWeatherKeys)
    (hdec : decodeHourlyWeather (.obj fs) = .ok h) :
    decodeHourlyWeather (.obj ((k, v) :: fs)) =
      .ok { h with extra := (k, v) :: h.extra } := by
  have hk2 := hk
  simp only [hourlyWeatherKeys, List.mem_cons, List.not_mem_nil,
    or_false] at hk2
  push_neg at hk2
  obtain ⟨h1, h2, h3, h4, h5, h6, h7, h8, h9, h10, h11⟩ := hk2
  simp only [decodeHourlyWeather] at hdec
  obtain ⟨t, ht, hdec⟩ := bind_eq_ok hdec
  obtain ⟨o1, ho1, hdec⟩ := bind_eq_ok hdec
  obtain ⟨o2, ho2, hdec⟩ := bind_eq_ok hdec
  obtain ⟨o3, ho3, hdec⟩ := bind_eq_ok hdec
  obtain ⟨o4, ho4, hdec⟩ := bind_eq_ok hdec
  obtain ⟨o5, ho5, hdec⟩ := bind_eq_ok hdec
  obtain ⟨o6, ho6, hdec⟩ := bind_eq_ok hdec
  obtain ⟨o7, ho7, hdec⟩ := bind_eq_ok hdec
  obtain ⟨o8, ho8, hdec⟩ := bind_eq_ok hdec
  obtain ⟨o9, ho9, hdec⟩ := bind_eq_ok hdec
  obtain ⟨o10, ho10, hdec⟩ := bind_eq_ok hdec
  rw [pure_eq_ok] at hdec
  injection hdec with hh
  simp only [decodeHourlyWeather, reqField_cons_ne h1, optField_cons_ne h2,
    optField_cons_ne h3, optField_cons_ne h4, optField_cons_ne h5,
    optField_cons_ne h6, optField_cons_ne h7, optField_cons_ne h8,
    optField_cons_ne h9, optField_cons_ne h10, optField_cons_ne h11,
    filter_extra_cons hk, ht, ho1, ho2, ho3, ho4, ho5, ho6, ho7, ho8, ho9,
    ho10, ebind_ok]
  rw [pure_eq_ok, ← hh]

/-- C3 counterexample: the `WeatherForecast` envelope does NOT retain an
unrecognized field — decoding an input with the extra field
`generationtime_ms` succeeds but produces exactly the record obtained
without that field, so the field is dropped, not retained. -/
theorem extra_fields_counterexample :
    decodeWeatherForecast (.obj [("latitude", .num 1), ("longitude", .num 2),
        ("generationtime_ms", .num 3)])
      = decodeWeatherForecast (.obj [("latitude", .num 1),
          ("longitude", .num 2)])
    ∧ decodeWeatherForecast (.obj [("latitude", .num 1), ("longitude", .num 2),
        ("generationtime_ms", .num 3)])
      = .ok { latitude := 1, longitude := 2, elevation := none,
              timezone := none, timezone_abbreviation := none,
              current_weather := none, hourly := none, daily := none } :=
  ⟨rfl, rfl⟩

/-- C3 (amended): decoding never rejects unknown fields, but only the
time-series blocks (`extra="allow"`) retain them; the five envelope
schemas silently ignore (drop) an unknown field — adding one to a
decodable envelope leaves the decoded record unchanged, while adding one
to a decodable hourly block succeeds and stores it in the record's extra
fields. -/
theorem extra_fields_handling :
    (∀ fs (k : String) (v : Json) r, k ∉ weatherForecastKeys →
        decodeWeatherForecast (.obj fs) = .ok r →
        decodeWeatherForecast (.obj ((k, v) :: fs)) = .ok r)
    ∧ (∀ fs (k : String) (v : Json) r, k ∉ historicalWeatherKeys →
        decodeHistoricalWeather (.obj fs) = .ok r →
        decodeHistoricalWeather (.obj ((k, v) :: fs)) = .ok r)
    ∧ (∀ fs (k : String) (v : Json) r, k ∉ airQualityResponseKeys →
        decodeAirQualityResponse (.obj fs) = .ok r →
        decodeAirQualityResponse (.obj ((k, v) :: fs)) = .ok r)
    ∧ (∀ fs (k : String) (v : Json) r, k ∉ marineForecastKeys →
        decodeMarineForecast (.obj fs) = .ok r →
        decodeMarineForecast (.obj ((k, v) :: fs)) = .ok r)
    ∧ (∀ fs (k : String) (v : Json) r, k ∉ geocodingResponseKeys →
        decodeGeocodingResponse (.obj fs) = .ok r →
        decodeGeocodingResponse (.obj ((k, v) :: fs)) = .ok r)
    ∧ (∀ fs (k : String) (v : Json) h, k ∉ hourlyWeatherKeys →
        decodeHourlyWeather (.obj fs) = .ok h →
        decodeHourlyWeather (.obj ((k, v) :: fs)) =
          .ok { h with extra := (k, v) :: h.extra }
        ∧ (k, v) ∈ ((k, v) :: h.extra)) := by
  refine ⟨?_, ?_, ?_, ?_, ?_, ?_⟩
  · intro fs k v r hk hdec
    rw [decodeWeatherForecast_ignores_unknown hk]
    exact hdec
  · intro fs k v r hk hdec
    rw [decodeHistoricalWeather_ignores_unknown hk]
    exact hdec
  · intro fs k v r hk hdec
    rw [decodeAirQualityResponse_ignores_unknown hk]
    exact hdec
  · intro fs k v r hk hdec
    rw [decodeMarineForecast_ignores_unknown hk]
    exact hdec
  · intro fs k v r hk hdec
    rw [decodeGeocodingResponse_ignores_unknown hk]
    exact hdec
  · intro fs k v h hk hdec
    exact ⟨decodeHourlyWeather_retains_unknown hk hdec,
           List.mem_cons_self _ _⟩

/-- C3 witness: a concrete unknown field `foo` is dropped by the envelope
decoder but retained in the extra fields of the hourly decoder. -/
theorem extra_fields_handling_witness :
    decodeWeatherForecast (.obj [("foo", .num 7), ("latitude", .num 1),
        ("longitude", .num 2)])
      = .ok { latitude := 1, longitude := 2, elevation := none,
              timezone := none, timezone_abbreviation := none,
              current_weather := none, hourly := none, daily := none }
    ∧ decodeHourlyWeather (.obj [("foo", .num 7),
        ("time", .arr [.str "a"])])
      = .ok { time := ["a"], temperature_2m := none,
              relative_humidity_2m := none, precipitation := none,
              rain := none, showers := none, snowfall := none,
              cloud_cover := none, wind_speed_10m := none,
              wind_direction_10m := none, pressure_msl := none,
              extra := [("foo", .num 7)] } :=
  ⟨extra_fields_handling.1 [("latitude", .num 1), ("longitude", .num 2)]
      "foo" (.num 7) _ (by decide) rfl,
   (extra_fields_handling.2.2.2.2.2 [("time", .arr [.str "a"])]
      "foo" (.num 7) _ (by decide) rfl).1⟩

-- C5: required fields

theorem map_some_eq_ok {α : Type} {x : Except String α} {o : Option α}
    (h : x.map some = .ok o) : ∃ a, x = .ok a ∧ o = some a := by
  cases x with
  | error e => simp [Except.map] at h
  | ok a =>
    simp only [Except.map, Except.ok.injEq] at h
    exact ⟨a, rfl, h.symm⟩

theorem reqField_ok_implies_present {α : Type} {fs : List (String × Json)}
    {k : String} {p : Json → Except String α} {a : α}
    (h : reqField fs k p = .ok a) : getField fs k ≠ none := by
  intro hg
  unfold reqField at h
  rw [hg] at h
  simp at h

theorem optField_obj {α : Type} {fs hfs : List (String × Json)} {k : String}
    {p : Json → Except String α} (hg : getField fs k = some (.obj hfs)) :
    optField fs k p = (p (.obj hfs)).map some := by
  unfold optField
  rw [hg]

/-- C5 counterexample: `weathercode` is a declared field outside the
claim's required set (latitude, longitude, series timestamps), yet a
response whose present current-weather block merely omits it fails to
decode instead of decoding to an absent value. -/
theorem required_fields_counterexample :
    decodeWeatherForecast (.obj [("latitude", .num 51), ("longitude", .num 0),
        ("current_weather", .obj [("temperature", .num 10),
          ("windspeed", .num 5), ("winddirection", .num 180),
          ("time", .str "2024-01-01T00:00")])])
      = .error ("weathercode" ++ ": field required") := rfl

/-- C5 (amended): decoding fails when a required field is missing, where
the required fields are latitude, longitude, the timestamp sequence of a
present hourly/daily block, AND every field of a present current-weather
block; all other declared envelope fields decode to an explicit absent
value when missing (a minimal object with only coordinates decodes with
every optional field `none`). -/
theorem required_fields_decoding :
    (∀ latitude longitude : ℚ,
        decodeWeatherForecast (.obj [("latitude", .num latitude),
            ("longitude", .num longitude)])
          = .ok { latitude := latitude, longitude := longitude,
                  elevation := none, timezone := none,
                  timezone_abbreviation := none, current_weather := none,
                  hourly := none, daily := none })
    ∧ (∀ fs, getField fs "latitude" = none →
        ∀ r, decodeWeatherForecast (.obj fs) ≠ .ok r)
    ∧ (∀ fs, getField fs "longitude" = none →
        ∀ r, decodeWeatherForecast (.obj fs) ≠ .ok r)
    ∧ (∀ fs hfs, getField fs "hourly" = some (.obj hfs) →
        getField hfs "time" = none →
        ∀ r, decodeWeatherForecast (.obj fs) ≠ .ok r)
    ∧ (∀ fs dfs, getField fs "daily" = some (.obj dfs) →
        getField dfs "time" = none →
        ∀ r, decodeWeatherForecast (.obj fs) ≠ .ok r)
    ∧ (∀ fs cfs, getField fs "current_weather" = some (.obj cfs) →
        (getField cfs "temperature" = none ∨ getField cfs "windspeed" = none
         ∨ getField cfs "winddirection" = none
         ∨ getField cfs "weathercode" = none ∨ getField cfs "time" = none) →
        ∀ r, decodeWeatherForecast (.obj fs) ≠ .ok r) := by
  refine ⟨?_, ?_, ?_, ?_, ?_, ?_⟩
  · intro latitude longitude
    rfl
  · intro fs hg r hdec
    simp only [decodeWeatherForecast] at hdec
    obtain ⟨lat, hlat, _⟩ := bind_eq_ok hdec
    exact reqField_ok_implies_present hlat hg
  · intro fs hg r hdec
    simp only [decodeWeatherForecast] at hdec
    obtain ⟨lat, hlat, hdec⟩ := bind_eq_ok hdec
    obtain ⟨lon, hlon, _⟩ := bind_eq_ok hdec
    exact reqField_ok_implies_present hlon hg
  · intro fs hfs hg ht r hdec
    simp only [decodeWeatherForecast] at hdec
    obtain ⟨lat, _, hdec⟩ := bind_eq_ok hdec
    obtain ⟨lon, _, hdec⟩ := bind_eq_ok hdec
    obtain ⟨elev, _, hdec⟩ := bind_eq_ok hdec
    obtain ⟨tz, _, hdec⟩ := bind_eq_ok hdec
    obtain ⟨tza, _, hdec⟩ := bind_eq_ok hdec
    obtain ⟨ocw, _, hdec⟩ := bind_eq_ok hdec
    obtain ⟨oh, hoh, _⟩ := bind_eq_ok hdec
    rw [optField_obj hg] at hoh
    obtain ⟨hw, hhw, _⟩ := map_some_eq_ok hoh
    simp only [decodeHourlyWeather] at hhw
    obtain ⟨t, htm, _⟩ := bind_eq_ok hhw
    exact reqField_ok_implies_present htm ht
  · intro fs dfs hg ht r hdec
    simp only [decodeWeatherForecast] at hdec
    obtain ⟨lat, _, hdec⟩ := bind_eq_ok hdec
    obtain ⟨lon, _, hdec⟩ := bind_eq_ok hdec
    obtain ⟨elev, _, hdec⟩ := bind_eq_ok hdec
    obtain ⟨tz, _, hdec⟩ := bind_eq_ok hdec
    obtain ⟨tza, _, hdec⟩ := bind_eq_ok hdec
    obtain ⟨ocw, _, hdec⟩ := bind_eq_ok hdec
    obtain ⟨oh, _, hdec⟩ := bind_eq_ok hdec
    obtain ⟨od, hod, _⟩ := bind_eq_ok hdec
    rw [optField_obj hg] at hod
    obtain ⟨dw, hdw, _⟩ := map_some_eq_ok hod
    simp only [decodeDailyWeather] at hdw
    obtain ⟨t, htm, _⟩ := bind_eq_ok hdw
    exact reqField_ok_implies_present htm ht
  · intro fs cfs hg hmiss r hdec
    simp only [decodeWeatherForecast] at hdec
    obtain ⟨lat, _, hdec⟩ := bind_eq_ok hdec
    obtain ⟨lon, _, hdec⟩ := bind_eq_ok hdec
    obtain ⟨elev, _, hdec⟩ := bind_eq_ok hdec
    obtain ⟨tz, _, hdec⟩ := bind_eq_ok hdec
    obtain ⟨tza, _, hdec⟩ := bind_eq_ok hdec
    obtain ⟨ocw, hocw, _⟩ := bind_eq_ok hdec
    rw [optField_obj hg] at hocw
    obtain ⟨cw, hcw, _⟩ := map_some_eq_ok hocw
    simp only [decodeCurrentWeather] at hcw
    obtain ⟨c1, hc1, hcw⟩ := bind_eq_ok hcw
    obtain ⟨c2, hc2, hcw⟩ := bind_eq_ok hcw
    obtain ⟨c3, hc3, hcw⟩ := bind_eq_ok hcw
    obtain ⟨c4, hc4, hcw⟩ := bind_eq_ok hcw
    obtain ⟨c5, hc5, _⟩ := bind_eq_ok hcw
    rcases hmiss with hm | hm | hm | hm | hm
    · exact reqField_ok_implies_present hc1 hm
    · exact reqField_ok_implies_present hc2 hm
    · exact reqField_ok_implies_present hc3 hm
    · exact reqField_ok_implies_present hc4 hm
    · exact reqField_ok_implies_present hc5 hm

/-- C5 witness: a coordinates-only object decodes with every optional
field absent; dropping latitude fails; a present hourly block without its
timestamp sequence fails. -/
theorem required_fields_decoding_witness :
    decodeWeatherForecast (.obj [("latitude", .num 1), ("longitude", .num 2)])
      = .ok { latitude := 1, longitude := 2, elevation := none,
              timezone := none, timezone_abbreviation := none,
              current_weather := none, hourly := none, daily := none }
    ∧ decodeWeatherForecast (.obj [("longitude", .num 2)])
        ≠ .ok { latitude := 1, longitude := 2, elevation := none,
                timezone := none, timezone_abbreviation := none,
                current_weather := none, hourly := none, daily := none }
    ∧ decodeWeatherForecast (.obj [("latitude", .num 1),
          ("longitude", .num 2), ("hourly", .obj [])])
        ≠ .ok { latitude := 1, longitude := 2, elevation := none,
                timezone := none, timezone_abbreviation := none,
                current_weather := none, hourly := none, daily := none } :=
  ⟨required_fields_decoding.1 1 2,
   required_fields_decoding.2.1 [("longitude", .num 2)] rfl _,
   required_fields_decoding.2.2.2.1 [("latitude", .num 1),
     ("longitude", .num 2), ("hourly", .obj [])] [] rfl rfl _⟩

-- C7: null entries inside sequences

/-- Encode an optional reading as a JSON entry (`null` for an absent one). -/
def optNumJson : Option ℚ → Json
  | none => .null
  | some q => .num q

theorem parseList_str_map (ts : List String) :
    parseList parseStr (.arr (ts.map Json.str)) = .ok ts := by
  simp only [parseList]
  induction ts with
  | nil => rfl
  | cons x xs ih =>
    rw [List.map_cons]
    simp only [mapME]
    simp [parseStr, ebind_ok, ih, pure_eq_ok]

theorem parseList_optNum_map (xs : List (Option ℚ)) :
    parseList parseOptNum (.arr (xs.map optNumJson)) = .ok xs := by
  simp only [parseList]
  induction xs with
  | nil => rfl
  | cons x xs ih =>
    rw [List.map_cons]
    simp only [mapME]
    cases x with
    | none => simp [optNumJson, parseOptNum, ebind_ok, ih, pure_eq_ok]
    | some q => simp [optNumJson, parseOptNum, ebind_ok, ih, pure_eq_ok]

theorem mapME_parseNum_null {l : List Json} (hl : Json.null ∈ l) :
    ∃ e, mapME parseNum l = .error e := by
  induction l with
  | nil => cases hl
  | cons x xs ih =>
    simp only [mapME]
    rcases List.mem_cons.mp hl with h | h
    · subst h
      exact ⟨"expected number", rfl⟩
    · cases hp : parseNum x with
      | error e => exact ⟨e, by rw [ebind_err]⟩
      | ok q =>
        obtain ⟨e, he⟩ := ih h
        exact ⟨e, by rw [ebind_ok, he, ebind_err]⟩

theorem optField_arr {α : Type} {fs : List (String × Json)} {k : String}
    {a : List Json} {p : Json → Except String α}
    (hg : getField fs k = some (.arr a)) :
    optField fs k p = (p (.arr a)).map some := by
  unfold optField
  rw [hg]

/-- C7 counterexample: `HourlyWeather.temperature_2m` is a numeric
per-timestamp reading typed `list[float]` (entries not nullable), so a
single `null` entry fails the whole decode instead of producing an absent
value at that position. -/
theorem nullable_entries_counterexample :
    decodeHourlyWeather (.obj [("time", .arr [.str "t"]),
        ("temperature_2m", .arr [.null])])
      = .error "expected number" := rfl

/-- C7 (amended): null entries inside a sequence are tolerated exactly by
the fields declared with nullable entries — all air-quality and marine
series (`Optional[list[Optional[float]]]`) decode `null` entries to absent
values at those positions — while the forecast/historical hourly weather
series (`Optional[list[float]]`) reject any null entry, failing the whole
decode. -/
theorem nullable_entries_tolerated :
    (∀ (t : List String) (xs : List (Option ℚ)),
        decodeHourlyAirQuality (.obj [("time", .arr (t.map Json.str)),
            ("pm10", .arr (xs.map optNumJson))])
          = .ok { time := t, pm10 := some xs, pm2_5 := none,
                  carbon_monoxide := none, nitrogen_dioxide := none,
                  sulphur_dioxide := none, ozone := none, dust := none,
                  uv_index := none, us_aqi := none, european_aqi := none,
                  extra := [] })
    ∧ (∀ (t : List String) (xs : List (Option ℚ)),
        decodeHourlyMarine (.obj [("time", .arr (t.map Json.str)),
            ("sea_level_height_msl", .arr (xs.map optNumJson))])
          = .ok { time := t, wave_height := none, wave_direction := none,
                  wave_period := none, wind_wave_height := none,
                  wind_wave_direction := none, wind_wave_period := none,
                  swell_wave_height := none, swell_wave_direction := none,
                  swell_wave_period := none, ocean_current_velocity := none,
                  ocean_current_direction := none,
                  sea_level_height_msl := some xs, extra := [] })
    ∧ (∀ (l : List Json) fs h, Json.null ∈ l →
        getField fs "temperature_2m" = some (.arr l) →
        decodeHourlyWeather (.obj fs) ≠ .ok h) := by
  refine ⟨?_, ?_, ?_⟩
  · intro t xs
    simp [decodeHourlyAirQuality, reqField, optField, getField,
      parseList_str_map, parseList_optNum_map, Except.map, ebind_ok,
      pure_eq_ok, List.find?, keyInList, hourlyAirQualityKeys]
  · intro t xs
    simp [decodeHourlyMarine, reqField, optField, getField,
      parseList_str_map, parseList_optNum_map, Except.map, ebind_ok,
      pure_eq_ok, List.find?, keyInList, hourlyMarineKeys]
  · intro l fs h hmem hg hdec
    simp only [decodeHourlyWeather] at hdec
    obtain ⟨t, ht, hdec⟩ := bind_eq_ok hdec
    obtain ⟨o1, ho1, _⟩ := bind_eq_ok hdec
    rw [optField_arr hg] at ho1
    obtain ⟨ys, hys, _⟩ := map_some_eq_ok ho1
    simp only [parseList] at hys
    obtain ⟨e, he⟩ := mapME_parseNum_null hmem
    rw [he] at hys
    simp at hys

/-- C7 witness: a null PM10 entry decodes to an absent reading at that
position, and the same null entry under `temperature_2m` aborts the
hourly-weather decode. -/
theorem nullable_entries_tolerated_witness :
    decodeHourlyAirQuality (.obj [("time", .arr (["a", "b"].map Json.str)),
        ("pm10", .arr ([some (1 : ℚ), none].map optNumJson))])
      = .ok { time := ["a", "b"], pm10 := some [some 1, none],
              pm2_5 := none, carbon_monoxide := none,
              nitrogen_dioxide := none, sulphur_dioxide := none,
              ozone := none, dust := none, uv_index := none, us_aqi := none,
              european_aqi := none, extra := [] }
    ∧ decodeHourlyWeather (.obj [("time", .arr [.str "t"]),
          ("temperature_2m", .arr [.null])])
        ≠ .ok { time := ["t"], temperature_2m := none,
                relative_humidity_2m := none, precipitation := none,
                rain := none, showers := none, snowfall := none,
                cloud_cover := none, wind_speed_10m := none,
                wind_direction_10m := none, pressure_msl := none,
                extra := [] } :=
  ⟨nullable_entries_tolerated.1 ["a", "b"] [some 1, none],
   nullable_entries_tolerated.2.2 [.null]
     [("time", .arr [.str "t"]), ("temperature_2m", .arr [.null])] _
     (List.mem_singleton.mpr rfl) rfl⟩
